import Mathlib

/-!
Verification of the Cloudinary video-transformation smoke-test script
(src/test-cloudinary.py).  The script is embedded shallowly: each check
routine becomes a pure Lean function from the responses of the remote
API (passed as explicit arguments) to the list of printed lines and the
returned boolean; the vendor SDK call that may raise is modelled in the
Except monad.  The whole-process model additionally accounts for CPython
compiling the module before executing it.
-/

namespace CloudinaryTest

/-- Credentials record: cloud identifier, API key, API secret, transport
security flag (source lines 14-25). -/
structure Credentials where
  cloud_name : String
  api_key : String
  api_secret : String
  secure : Bool

/-- The cloud-name literal appearing on source line 15. -/
def CLOUD_NAME : String := "drqvv2lrs"

/-- The API-key literal appearing on source line 16. -/
def API_KEY : String := "462480066637115"

/-- The API-secret literal appearing on source line 17. -/
def API_SECRET : String := "qpO2cPl2ryutCxCZeE09EVBC1WE"

/-- The configuration the script intends to install (source lines 20-25). -/
def theCreds : Credentials := ⟨CLOUD_NAME, API_KEY, API_SECRET, true⟩

/-- The banner string, the Python expression of sixty repeated equals signs. -/
def eq60 : String := String.mk (List.replicate 60 '=')

/-- Value of the effect option: a single token or an ordered token list. -/
inductive EffectVal
  | single (tok : String)
  | chain (toks : List String)

/-- Option mapping of a transformation preset: exactly the dict keys used
on source lines 45-95. -/
structure TransformOptions where
  width : Option Nat
  height : Option Nat
  crop : Option String
  gravity : Option String
  quality : Option String
  effect : Option EffectVal

/-- Named transformation preset. -/
structure Preset where
  name : String
  options : TransformOptions

/-- The first preset of source lines 46-56. -/
def firstTransform : Preset :=
  ⟨"1920x1080 Wide + Grayscale + AI Improve",
    ⟨some 1920, some 1080, some "fill", some "auto", some "auto:good",
      some (EffectVal.chain ["grayscale", "improve"])⟩⟩

/-- The six presets of source lines 45-95, in source order. -/
def transformations : List Preset :=
  [firstTransform,
   ⟨"720x1280 TikTok + Blur",
     ⟨some 720, some 1280, some "fill", some "auto", none,
       some (EffectVal.single "blur:500")⟩⟩,
   ⟨"1080x1080 Square + Sepia + Vignette",
     ⟨some 1080, some 1080, some "fill", some "auto", none,
       some (EffectVal.chain ["sepia:80", "vignette:50"])⟩⟩,
   ⟨"Reverse Playback",
     ⟨none, none, none, none, none, some (EffectVal.single "reverse")⟩⟩,
   ⟨"Boomerang Effect",
     ⟨none, none, none, none, none, some (EffectVal.single "boomerang")⟩⟩,
   ⟨"Slow Motion (50%)",
     ⟨none, none, none, none, none, some (EffectVal.single "accelerate:-50")⟩⟩]

/-- The four test video identifiers (source lines 34-39). -/
def test_videos : List String :=
  ["dp9ns53ghrq6mo0iuvgy", "ssaeqwprxjrencjcwbfk",
   "smmdyauqvl15qrdtwojb", "ttbamdiuzirfrzncgq9o"]

/-- Parameters of the cloudinary.api.resources call (source lines 134-138). -/
structure ResourcesRequest where
  resource_type : String
  max_results : Nat
  type : String

/-- The one request the resource lister makes, with the literal arguments
of source lines 134-138. -/
def listRequest : ResourcesRequest := ⟨"video", 10, "upload"⟩

/-- One media resource descriptor of the listing response; every field is
optional because the script reads each one with dict.get. -/
structure Resource where
  public_id : Option String
  format : Option String
  bytes : Option Nat
  width : Option Nat
  height : Option Nat
  secure_url : Option String

/-- The listing response body; an absent or empty resources key both model
as the empty list, which is exactly the falsy test on source line 140. -/
structure ResourcesResult where
  resources : List Resource

/-- How a Python f-string renders an optional string (dict.get result). -/
def pyOptStr : Option String → String
  | none => "None"
  | some s => s

/-- How a Python f-string renders an optional integer (dict.get result). -/
def pyOptNat : Option Nat → String
  | none => "None"
  | some n => toString n

/-- Round num/den to the nearest integer with ties to even: the rounding
CPython applies when formatting with two fixed decimals a float that holds
its rational value exactly, as bytes/1024/1024 does for realistic byte
counts, division by a power of two being exact on binary floats. -/
def roundHalfEven (num den : Nat) : Nat :=
  if 2 * (num % den) < den then num / den
  else if den < 2 * (num % den) then num / den + 1
  else if (num / den) % 2 = 0 then num / den else num / den + 1

/-- Two-digit zero-padded rendering of a value below one hundred. -/
def pad2 (n : Nat) : String :=
  if n < 10 then "0" ++ toString n else toString n

/-- The text produced on source line 144 by formatting bytes/1024/1024
with two fixed decimals: the nearest hundredth of b/1048576, ties to
even, rendered with exactly two digits after the point. -/
def mbString (b : Nat) : String :=
  let h := roundHalfEven (100 * b) 1048576
  toString (h / 100) ++ "." ++ pad2 (h % 100)

/-- The lines printed for the listed resources (source lines 141-146),
with one-based enumeration. -/
def resourceLines : Nat → List Resource → List String
  | _, [] => []
  | i, r :: rs =>
    ("\n" ++ toString i ++ ". " ++ pyOptStr r.public_id) ::
    ("   Format: " ++ pyOptStr r.format) ::
    ("   Size: " ++ mbString (r.bytes.getD 0) ++ " MB") ::
    ("   Dimensions: " ++ pyOptNat r.width ++ "x" ++ pyOptNat r.height) ::
    ("   URL: " ++ pyOptStr r.secure_url) ::
    resourceLines (i + 1) rs

/-- Header lines of test_account_info (source lines 115-117). -/
def accountHdr : List String := ["\n" ++ eq60, "🔐 ACCOUNT CONNECTION TEST", eq60]

/-- test_account_info (source lines 113-125): invoke the ping call; print
the raw result and return true on success, catch any error, print the
failure message and return false.  The Lean function is total, which is
the no-exception-propagation contract. -/
def test_account_info (ping : Except String String) : List String × Bool :=
  match ping with
  | Except.ok r => (accountHdr ++ ["✅ Connection successful: " ++ r], true)
  | Except.error e => (accountHdr ++ ["❌ Connection failed: " ++ e], false)

/-- Header lines of test_list_resources (source lines 129-131). -/
def listHdr : List String := ["\n" ++ eq60, "📂 RECENT VIDEO UPLOADS", eq60]

/-- test_list_resources (source lines 127-153): one listing request with
the fixed parameters; on an empty result print the notice and return
true; on a caught error print the message and return false. -/
def test_list_resources (api : ResourcesRequest → Except String ResourcesResult) :
    List String × Bool :=
  match api listRequest with
  | Except.error e => (listHdr ++ ["❌ Error listing resources: " ++ e], false)
  | Except.ok res =>
    if res.resources.isEmpty then (listHdr ++ ["No videos found in account"], true)
    else (listHdr ++ resourceLines 1 res.resources, true)

/-- The effect tokens an option mapping carries, in listed order. -/
def effectTokens : Option EffectVal → List String
  | none => []
  | some (EffectVal.single t) => [t]
  | some (EffectVal.chain ts) => ts

/-- One URL segment per effect token, in order, each rendered e_token. -/
def sdkEffectSegments : List String → List String
  | [] => []
  | t :: ts => ("e_" ++ t) :: sdkEffectSegments ts

/-- The co-applied non-effect option parts, comma-joined into one segment
by the builder below. -/
def baseParts (o : TransformOptions) : List String :=
  (o.width.map (fun n => "w_" ++ toString n)).toList ++
  (o.height.map (fun n => "h_" ++ toString n)).toList ++
  (o.crop.map (fun s => "c_" ++ s)).toList ++
  (o.gravity.map (fun s => "g_" ++ s)).toList ++
  (o.quality.map (fun s => "q_" ++ s)).toList

/-- Modelled from the spec: the vendor SDK routine CloudinaryVideo.build_url
invoked on source line 107 is third-party code absent from src/.  Spec
sections 4.3-4.4 give its transformation grammar: co-applied options are
comma-joined into one segment, an ordered effect list chains as successive
slash-joined segments in listed order, and the URL shape is
https host, cloud name, the video upload path, the segments, then the
public identifier with the mp4 extension. -/
def sdk_build_url (c : Credentials) (public_id : String) (o : TransformOptions) : String :=
  let segs :=
    (if (baseParts o).isEmpty then [] else [String.intercalate "," (baseParts o)]) ++
    sdkEffectSegments (effectTokens o.effect)
  "https://res.cloudinary.com/" ++ c.cloud_name ++ "/video/upload/" ++
    String.intercalate "/" segs ++ "/" ++ public_id ++ ".mp4"

/-- Following the words of the spec: an ordered effect list renders as chained
slash-joined segments, one e_token segment per token, in listed order. -/
def manualEffectChain (ts : List String) : String :=
  String.intercalate "/" (ts.map (fun t => "e_" ++ t))

/-- The inner preset loop of source lines 102-109: two printed lines per
preset; an error raised by the SDK builder propagates. -/
def transformLines (bu : String → TransformOptions → Except String String)
    (vid : String) : List Preset → Except String (List String)
  | [] => Except.ok []
  | p :: ps =>
    match bu vid p.options with
    | Except.error e => Except.error e
    | Except.ok url =>
      match transformLines bu vid ps with
      | Except.error e => Except.error e
      | Except.ok rest =>
        Except.ok (("\n✨ " ++ p.name ++ ":") :: ("   📎 URL: " ++ url) :: rest)

/-- The outer video loop of source lines 97-109. -/
def videoLines (bu : String → TransformOptions → Except String String) :
    List String → Except String (List String)
  | [] => Except.ok []
  | v :: vs =>
    match transformLines bu v transformations with
    | Except.error e => Except.error e
    | Except.ok ls =>
      match videoLines bu vs with
      | Except.error e => Except.error e
      | Except.ok rest =>
        Except.ok ((("\n" ++ eq60) :: ("📹 Testing video: " ++ v) :: eq60 :: ls) ++ rest)

/-- Header lines of test_url_generation (source lines 29-42), including
the cloud name and the first ten characters of the API key. -/
def urlHdr (c : Credentials) : List String :=
  ["\n" ++ eq60, "🎬 CLOUDINARY VIDEO TRANSFORMATION TEST", eq60,
   "\n📦 Cloud Name: " ++ c.cloud_name,
   "🔑 API Key: " ++ c.api_key.take 10 ++ "..."]

/-- test_url_generation (source lines 27-111): loops over the one-element
slice of the video list and all presets, returns true on the success
path; an error from the SDK builder propagates, there is no handler. -/
def test_url_generation (c : Credentials)
    (bu : String → TransformOptions → Except String String) :
    Except String (List String × Bool) :=
  match videoLines bu (test_videos.take 1) with
  | Except.error e => Except.error e
  | Except.ok ls => Except.ok (urlHdr c ++ ls, true)

/-- The identifier and option pairs passed to the SDK builder, exactly the
loops of source lines 97-107. -/
def urlGenCalls : List (String × TransformOptions) :=
  (test_videos.take 1).flatMap (fun v => transformations.map (fun p => (v, p.options)))

/-- The fixed public identifier of source line 161. -/
def videoId : String := "dp9ns53ghrq6mo0iuvgy"

/-- The fixed label and URL pairs of source lines 163-172. -/
def samples (c : Credentials) : List (String × String) :=
  [("Resize 1920x1080", "https://res.cloudinary.com/" ++ c.cloud_name ++ "/video/upload/w_1920,h_1080,c_fill,g_auto,q_auto/" ++ videoId ++ ".mp4"),
   ("Grayscale", "https://res.cloudinary.com/" ++ c.cloud_name ++ "/video/upload/e_grayscale/" ++ videoId ++ ".mp4"),
   ("AI Improve", "https://res.cloudinary.com/" ++ c.cloud_name ++ "/video/upload/e_improve/" ++ videoId ++ ".mp4"),
   ("Blur", "https://res.cloudinary.com/" ++ c.cloud_name ++ "/video/upload/e_blur:500/" ++ videoId ++ ".mp4"),
   ("Sepia", "https://res.cloudinary.com/" ++ c.cloud_name ++ "/video/upload/e_sepia:80/" ++ videoId ++ ".mp4"),
   ("Reverse", "https://res.cloudinary.com/" ++ c.cloud_name ++ "/video/upload/e_reverse/" ++ videoId ++ ".mp4"),
   ("Boomerang", "https://res.cloudinary.com/" ++ c.cloud_name ++ "/video/upload/e_boomerang/" ++ videoId ++ ".mp4"),
   ("All Effects Combined", "https://res.cloudinary.com/" ++ c.cloud_name ++ "/video/upload/w_1920,h_1080,c_fill,g_auto,q_auto:good/e_grayscale/e_improve/" ++ videoId ++ ".mp4")]

/-- Header lines of generate_sample_urls (source lines 157-159). -/
def sampleHdr : List String := ["\n" ++ eq60, "📋 SAMPLE TRANSFORMATION URLS", eq60]

/-- generate_sample_urls (source lines 155-176): pure string templating
with no remote call, witnessed by the definition needing only the
configured credentials and no API response. -/
def generate_sample_urls (c : Credentials) : List String :=
  sampleHdr ++ (samples c).flatMap (fun pr => ["\n" ++ pr.1 ++ ":", "   " ++ pr.2])

/-- Responses of the remote API for one process run. -/
structure Env where
  ping : Except String String
  resources : ResourcesRequest → Except String ResourcesResult
  build_url : String → TransformOptions → Except String String

/-- The body of the main block (source lines 178-189), assuming the module
had loaded: each check invoked unconditionally in source order, returned
booleans ignored, normal completion carrying exit status zero; an uncaught
error from the URL-generation routine aborts the block. -/
def mainBlock (c : Credentials) (env : Env) : Except String (List String × Nat) :=
  let a := test_account_info env.ping
  let l := test_list_resources env.resources
  match test_url_generation c env.build_url with
  | Except.error e => Except.error e
  | Except.ok u =>
    Except.ok (["\n🚀 Starting Cloudinary Tests..."] ++ a.1 ++ l.1 ++ u.1 ++
      generate_sample_urls c ++ ["\n" ++ eq60, "✅ ALL TESTS COMPLETED", eq60 ++ "\n"], 0)

/-- Exit status of the main block when it runs: one on an uncaught
exception, as CPython reports it, otherwise the normal status. -/
def completedExitCode (c : Credentials) (env : Env) : Nat :=
  match mainBlock c env with
  | Except.error _ => 1
  | Except.ok u => u.2

/-- Source line 15, verbatim. -/
def credLine1 : String := "//CLOUD_NAME = \"drqvv2lrs\""

/-- Source line 16, verbatim. -/
def credLine2 : String := "//API_KEY = \"462480066637115\""

/-- Source line 17, verbatim. -/
def credLine3 : String := "//API_SECRET = \"qpO2cPl2ryutCxCZeE09EVBC1WE\""

/-- Character-list prefix test. -/
def beginsWith : List Char → List Char → Bool
  | [], _ => true
  | _ :: _, [] => false
  | a :: as, b :: bs => a = b && beginsWith as bs

/-- Character-list containment test. -/
def occursIn (needle : List Char) : List Char → Bool
  | [] => beginsWith needle []
  | c :: t => beginsWith needle (c :: t) || occursIn needle t

/-- Character-list suffix test. -/
def finishesWith (needle hay : List Char) : Bool :=
  beginsWith needle.reverse hay.reverse

/-- A Python logical line whose first token is the floor-division operator:
no Python statement may begin with a binary operator, so a module holding
such a top-level line fails to compile, before anything executes. -/
def startsWithFloorDivOp (s : String) : Bool :=
  beginsWith ['/', '/'] (s.data.dropWhile (fun ch => ch = ' '))

/-- The three top-level credential lines of source lines 15-17. -/
def sourceCredLines : List String := [credLine1, credLine2, credLine3]

/-- CPython compiles the whole module before running any of it; the script
carries top-level lines beginning with the floor-division operator. -/
def moduleParseError : Bool := sourceCredLines.any startsWithFloorDivOp

/-- Outcome of one process run: compile failure, or the main block ran. -/
inductive RunOutcome
  | parseError
  | completed (r : Except String (List String × Nat))

/-- Whole-process model of running the script: compile first and, only when
compilation succeeds, bind the credentials and run the main block. -/
def runScript (env : Env) : RunOutcome :=
  if moduleParseError then RunOutcome.parseError
  else RunOutcome.completed (mainBlock theCreds env)

/-- Lines the process writes to standard output; a compile failure reports
on standard error only, and an uncaught exception path is modelled as its
traceback, any earlier output elided. -/
def scriptStdout (env : Env) : List String :=
  match runScript env with
  | RunOutcome.parseError => []
  | RunOutcome.completed (Except.error _) => []
  | RunOutcome.completed (Except.ok u) => u.1

/-- Exit status of the process: one on compile failure or an uncaught
exception, otherwise the status the main block produced. -/
def processExitCode (env : Env) : Nat :=
  match runScript env with
  | RunOutcome.parseError => 1
  | RunOutcome.completed (Except.error _) => 1
  | RunOutcome.completed (Except.ok u) => u.2

/-- URL grammar of the spec: https scheme with the res.cloudinary.com
host, a path containing the video upload marker, terminating in the fixed
public identifier followed by the mp4 extension. -/
def wellFormedSample (u : String) : Bool :=
  beginsWith ("https://res.cloudinary.com/".data) u.data &&
  occursIn ("/video/upload/".data) u.data &&
  finishesWith ((videoId ++ ".mp4").data) u.data

/-- A listing oracle answering every request with an empty result. -/
def emptyApi : ResourcesRequest → Except String ResourcesResult :=
  fun _ => Except.ok ⟨[]⟩

/-- A listing oracle agreeing with emptyApi on the one request made. -/
def emptyApiAlt : ResourcesRequest → Except String ResourcesResult :=
  fun r => if r.resource_type = "video" then Except.ok ⟨[]⟩ else Except.error "unused"

/-- A run in which every remote call succeeds. -/
def okEnv : Env :=
  ⟨Except.ok "status ok", emptyApi, fun v o => Except.ok (sdk_build_url theCreds v o)⟩

/-- A run in which the SDK URL builder raises. -/
def errEnv : Env :=
  ⟨Except.ok "status ok", emptyApi, fun _ _ => Except.error "ValueError: invalid options"⟩

/-- A builder oracle that always succeeds. -/
def buA : String → TransformOptions → Except String String :=
  fun v o => Except.ok (sdk_build_url theCreds v o)

/-- A builder oracle agreeing with buA on the identifier exercised. -/
def buB : String → TransformOptions → Except String String :=
  fun v o => if v = videoId then Except.ok (sdk_build_url theCreds v o) else Except.error "unused"

/-- Credentials sharing the cloud name and the first ten key characters
with theCreds, but a different key tail and a different secret. -/
def altCreds : Credentials := ⟨CLOUD_NAME, API_KEY ++ "999", "differentSecretValue", true⟩

/-- C2: loading the source file fails before any check routine executes:
the three credential lines begin with the floor-division operator, which
cannot start a Python statement, so every run stops at compilation with
no check executed, no output produced and, the binding statements never
being reached, the credential names never bound. -/
theorem c2_module_load_fails :
    startsWithFloorDivOp credLine1 = true ∧
    startsWithFloorDivOp credLine2 = true ∧
    startsWithFloorDivOp credLine3 = true ∧
    moduleParseError = true ∧
    ∀ env : Env, runScript env = RunOutcome.parseError ∧
      scriptStdout env = [] ∧ processExitCode env = 1 := by
  refine ⟨by decide, by decide, by decide, by decide, fun env => ?_⟩
  have hm : moduleParseError = true := by decide
  refine ⟨?_, ?_, ?_⟩ <;> simp [runScript, scriptStdout, processExitCode, hm]

/-- C1: as written, the entry point would run the four checks
unconditionally in source order, never branching on a returned boolean,
and complete with exit status zero; but no run reaches it: module
compilation fails, so the exit status of every actual run is nonzero. -/
theorem c1_entry_point :
    (∀ env : Env, processExitCode env ≠ 0) ∧
    ∀ (env : Env) (p : List String × Bool),
      test_url_generation theCreds env.build_url = Except.ok p →
      mainBlock theCreds env =
        Except.ok (["\n🚀 Starting Cloudinary Tests..."] ++
          (test_account_info env.ping).1 ++ (test_list_resources env.resources).1 ++
          p.1 ++ generate_sample_urls theCreds ++
          ["\n" ++ eq60, "✅ ALL TESTS COMPLETED", eq60 ++ "\n"], 0) := by
  constructor
  · intro env
    have hm : moduleParseError = true := by decide
    simp [processExitCode, runScript, hm]
  · intro env p h
    simp [mainBlock, h]

/-- Witness for C1 at a concrete all-successful environment. -/
theorem c1_entry_point_witness :
    (processExitCode okEnv ≠ 0) ∧
    ∃ p, test_url_generation theCreds okEnv.build_url = Except.ok p ∧
      mainBlock theCreds okEnv =
        Except.ok (["\n🚀 Starting Cloudinary Tests..."] ++
          (test_account_info okEnv.ping).1 ++ (test_list_resources okEnv.resources).1 ++
          p.1 ++ generate_sample_urls theCreds ++
          ["\n" ++ eq60, "✅ ALL TESTS COMPLETED", eq60 ++ "\n"], 0) :=
  ⟨c1_entry_point.1 okEnv, ⟨_, rfl, c1_entry_point.2 okEnv _ rfl⟩⟩

/-- C3: the connectivity check invokes the ping call; on success it prints
the raw result and returns true, on any failure it prints the failure
message and returns false; being a total function of the call outcome it
hands a boolean back in every case, propagating no exception. -/
theorem c3_account_info_contract :
    (∀ r, test_account_info (Except.ok r) =
      (accountHdr ++ ["✅ Connection successful: " ++ r], true)) ∧
    (∀ e, test_account_info (Except.error e) =
      (accountHdr ++ ["❌ Connection failed: " ++ e], false)) :=
  ⟨fun _ => rfl, fun _ => rfl⟩

/-- C4: when the listing call succeeds with an empty resource list, the
lister prints the no-videos notice and returns true, not false. -/
theorem c4_empty_listing_success :
    ∀ api : ResourcesRequest → Except String ResourcesResult,
      api listRequest = Except.ok ⟨[]⟩ →
      test_list_resources api = (listHdr ++ ["No videos found in account"], true) := by
  intro api h
  simp [test_list_resources, h]

/-- Witness for C4 at a concrete listing oracle. -/
theorem c4_empty_listing_success_witness :
    test_list_resources emptyApi = (listHdr ++ ["No videos found in account"], true) :=
  c4_empty_listing_success emptyApi rfl

/-- The rounding helper lands within one half of the exact ratio. -/
theorem roundHalfEven_err (n d : Nat) (hd : 0 < d) :
    |((roundHalfEven n d : ℚ)) - (n : ℚ) / (d : ℚ)| ≤ 1 / 2 := by
  have hd0 : (0 : ℚ) < (d : ℚ) := by exact_mod_cast hd
  have hn : (n : ℚ) = (d : ℚ) * ((n / d : Nat) : ℚ) + ((n % d : Nat) : ℚ) := by
    exact_mod_cast (Nat.div_add_mod n d).symm
  have hr : ((n % d : Nat) : ℚ) < (d : ℚ) := by exact_mod_cast Nat.mod_lt n hd
  have hr0 : (0 : ℚ) ≤ ((n % d : Nat) : ℚ) := by positivity
  have key1 : ((n / d : Nat) : ℚ) - (n : ℚ) / (d : ℚ) = -(((n % d : Nat) : ℚ) / (d : ℚ)) := by
    rw [hn]
    field_simp
    ring
  have key2 : (((n / d : Nat) : ℚ) + 1) - (n : ℚ) / (d : ℚ)
      = ((d : ℚ) - ((n % d : Nat) : ℚ)) / (d : ℚ) := by
    rw [hn]
    field_simp
    ring
  unfold roundHalfEven
  split_ifs with h1 h2 h3
  · have h1q : 2 * ((n % d : Nat) : ℚ) < (d : ℚ) := by exact_mod_cast h1
    rw [key1, abs_neg, abs_of_nonneg (by positivity), div_le_iff₀ hd0]
    linarith
  · have h2q : (d : ℚ) < 2 * ((n % d : Nat) : ℚ) := by exact_mod_cast h2
    push_cast
    push_cast at key2
    rw [key2, abs_of_nonneg (div_nonneg (by linarith) (le_of_lt hd0)), div_le_iff₀ hd0]
    linarith
  · have heq : (d : ℚ) = 2 * ((n % d : Nat) : ℚ) := by
      have := le_antisymm (Nat.not_lt.mp h2) (Nat.not_lt.mp h1)
      exact_mod_cast this.symm
    rw [key1, abs_neg, abs_of_nonneg (by positivity), div_le_iff₀ hd0]
    linarith
  · have heq : (d : ℚ) = 2 * ((n % d : Nat) : ℚ) := by
      have := le_antisymm (Nat.not_lt.mp h2) (Nat.not_lt.mp h1)
      exact_mod_cast this.symm
    push_cast
    push_cast at key2
    rw [key2, abs_of_nonneg (div_nonneg (by linarith) (le_of_lt hd0)), div_le_iff₀ hd0]
    linarith

/-- C5: the size printed for a descriptor is its byte count divided by
1048576 rounded to two decimal places (within half a hundredth of the
exact ratio, and exactly the nearest hundredth with ties to even); in
particular byte count 1048576 prints 1.00 and 1572864 prints 1.50. -/
theorem c5_size_mebibytes :
    (∀ (r : Resource) (i : Nat) (rs : List Resource),
        (resourceLines i (r :: rs)).get? 2 =
          some ("   Size: " ++ mbString (r.bytes.getD 0) ++ " MB")) ∧
    (∀ b : Nat,
        |((roundHalfEven (100 * b) 1048576 : ℚ)) / 100 - (b : ℚ) / 1048576| ≤ 1 / 200) ∧
    mbString 1048576 = "1.00" ∧ mbString 1572864 = "1.50" := by
  refine ⟨fun r i rs => rfl, fun b => ?_, by decide, by decide⟩
  have h := roundHalfEven_err (100 * b) 1048576 (by norm_num)
  have e : ((roundHalfEven (100 * b) 1048576 : ℚ)) / 100 - (b : ℚ) / 1048576
      = (((roundHalfEven (100 * b) 1048576 : ℚ)) - ((100 * b : Nat) : ℚ) / 1048576) / 100 := by
    push_cast
    ring
  rw [e, abs_div, abs_of_nonneg (by norm_num : (0 : ℚ) ≤ 100),
    div_le_iff₀ (by norm_num : (0 : ℚ) < 100)]
  calc |((roundHalfEven (100 * b) 1048576 : ℚ)) - ((100 * b : Nat) : ℚ) / 1048576|
      ≤ 1 / 2 := h
    _ = 1 / 200 * 100 := by norm_num

/-- C6: no handler wraps the URL-generation routine or its call site: an
error raised by the SDK builder at the first exercised call propagates
out of the routine and out of the main block, which then ends with a
nonzero status. -/
theorem c6_urlgen_error_propagates :
    ∀ (c : Credentials) (env : Env) (e : String),
      (env.build_url "dp9ns53ghrq6mo0iuvgy" firstTransform.options = Except.error e →
        test_url_generation c env.build_url = Except.error e) ∧
      (test_url_generation c env.build_url = Except.error e →
        mainBlock c env = Except.error e ∧ completedExitCode c env = 1) := by
  intro c env e
  constructor
  · intro h
    have e1 : test_videos.take 1 = ["dp9ns53ghrq6mo0iuvgy"] := by decide
    simp [test_url_generation, e1, videoLines, transformations, transformLines, h]
  · intro h
    refine ⟨?_, ?_⟩ <;> simp [mainBlock, completedExitCode, h]

/-- Witness for C6: a concrete run whose SDK builder raises. -/
theorem c6_urlgen_error_propagates_witness :
    test_url_generation theCreds errEnv.build_url = Except.error "ValueError: invalid options" ∧
    mainBlock theCreds errEnv = Except.error "ValueError: invalid options" ∧
    completedExitCode theCreds errEnv = 1 := by
  have h1 := (c6_urlgen_error_propagates theCreds errEnv "ValueError: invalid options").1 rfl
  have h2 := (c6_urlgen_error_propagates theCreds errEnv "ValueError: invalid options").2 h1
  exact ⟨h1, h2.1, h2.2⟩

/-- The segments the builder produces for a token list, one per token. -/
theorem sdkEffectSegments_map (ts : List String) :
    sdkEffectSegments ts = ts.map (fun t => "e_" ++ t) := by
  induction ts with
  | nil => rfl
  | cons t ts ih => simp [sdkEffectSegments, ih]

/-- C7: for every ordered list of effect tokens, the SDK-driven build and
the manually-templated build agree on ordering: the effects chain as
successive slash-joined segments in listed order, never merged into one
segment; in particular the SDK build of the first preset reproduces
verbatim the manually templated All Effects Combined sample URL. -/
theorem c7_effect_order_agreement :
    (∀ ts : List String,
        String.intercalate "/" (sdkEffectSegments ts) = manualEffectChain ts) ∧
    sdk_build_url theCreds videoId firstTransform.options =
      ((samples theCreds).getD 7 ("", "")).2 ∧
    effectTokens firstTransform.options.effect = ["grayscale", "improve"] := by
  refine ⟨fun ts => ?_, by decide, rfl⟩
  rw [manualEffectChain, sdkEffectSegments_map]

/-- C8: the static sample generator performs no remote call, its output
being a function of the configured credentials alone, and each of its
eight fixed URLs is well-formed: https scheme, res.cloudinary.com host,
a path containing the video upload marker, and a tail consisting of the
fixed public identifier followed by the mp4 extension. -/
theorem c8_sample_urls_wellformed :
    (samples theCreds).length = 8 ∧
    ((samples theCreds).all (fun pr => wellFormedSample pr.2)) = true ∧
    ∀ pr ∈ samples theCreds, wellFormedSample pr.2 = true := by
  have hall : ((samples theCreds).all (fun pr => wellFormedSample pr.2)) = true := by decide
  exact ⟨rfl, hall, fun pr hpr => List.all_eq_true.mp hall pr hpr⟩

/-- Witness for C8 at the first sample pair. -/
theorem c8_sample_urls_wellformed_witness :
    wellFormedSample ((samples theCreds).getD 0 ("", "")).2 = true :=
  c8_sample_urls_wellformed.2.2 ((samples theCreds).getD 0 ("", "")) (by decide)

/-- The preset loop depends on the builder only at the preset options. -/
theorem transformLines_congr (vid : String)
    (b1 b2 : String → TransformOptions → Except String String) :
    ∀ ps : List Preset, (∀ p ∈ ps, b1 vid p.options = b2 vid p.options) →
      transformLines b1 vid ps = transformLines b2 vid ps := by
  intro ps
  induction ps with
  | nil => intro _; rfl
  | cons p ps ih =>
    intro h
    have hp := h p (by simp)
    have hr := ih (fun q hq => h q (by simp [hq]))
    simp [transformLines, hp, hr]

/-- C9: the resource lister makes one request capped at ten results and
filtered to video resources of upload type, so a routine run depends on
its oracle only at that request; the URL builder exercises only the first
of its fixed four identifiers, pairing it with all six presets in listed
order, so it depends on the builder only at those six calls. -/
theorem c9_fixed_parameters :
    listRequest.resource_type = "video" ∧
    listRequest.max_results = 10 ∧
    listRequest.type = "upload" ∧
    test_videos.length = 4 ∧
    transformations.length = 6 ∧
    urlGenCalls = transformations.map (fun p => ("dp9ns53ghrq6mo0iuvgy", p.options)) ∧
    (∀ a1 a2 : ResourcesRequest → Except String ResourcesResult,
        a1 listRequest = a2 listRequest →
        test_list_resources a1 = test_list_resources a2) ∧
    (∀ (c : Credentials) (b1 b2 : String → TransformOptions → Except String String),
        (∀ p ∈ transformations,
          b1 "dp9ns53ghrq6mo0iuvgy" p.options = b2 "dp9ns53ghrq6mo0iuvgy" p.options) →
        test_url_generation c b1 = test_url_generation c b2) := by
  refine ⟨rfl, rfl, rfl, rfl, rfl, rfl, ?_, ?_⟩
  · intro a1 a2 h
    simp [test_list_resources, h]
  · intro c b1 b2 h
    have e1 : test_videos.take 1 = ["dp9ns53ghrq6mo0iuvgy"] := by decide
    have e2 := transformLines_congr "dp9ns53ghrq6mo0iuvgy" b1 b2 transformations h
    simp [test_url_generation, e1, videoLines, e2]

/-- Witness for C9 at concrete pairs of oracles that agree on the calls
actually made but nowhere else. -/
theorem c9_fixed_parameters_witness :
    test_list_resources emptyApi = test_list_resources emptyApiAlt ∧
    test_url_generation theCreds buA = test_url_generation theCreds buB := by
  refine ⟨c9_fixed_parameters.2.2.2.2.2.2.1 emptyApi emptyApiAlt rfl,
    c9_fixed_parameters.2.2.2.2.2.2.2 theCreds buA buB ?_⟩
  intro p _
  rfl

/-- C10: every printed line is invariant under changing the API secret or
any key character past the tenth while the cloud name and the first ten
key characters stay fixed, hence the full secret and the full key are
absent from the output as information; and the one key line printed is
exactly the first ten key characters followed by an ellipsis. -/
theorem c10_secret_noninterference :
    (∀ (c1 c2 : Credentials) (env : Env),
        c1.cloud_name = c2.cloud_name →
        c1.api_key.take 10 = c2.api_key.take 10 →
        mainBlock c1 env = mainBlock c2 env) ∧
    (∀ (c : Credentials) (env : Env) (u : List String × Nat),
        mainBlock c env = Except.ok u →
        ("🔑 API Key: " ++ c.api_key.take 10 ++ "...") ∈ u.1) := by
  constructor
  · intro c1 c2 env h1 h2
    have hu : urlHdr c1 = urlHdr c2 := by simp [urlHdr, h1, h2]
    have ht : test_url_generation c1 env.build_url = test_url_generation c2 env.build_url := by
      simp [test_url_generation, hu]
    have hs : samples c1 = samples c2 := by simp [samples, h1]
    have hg : generate_sample_urls c1 = generate_sample_urls c2 := by
      simp [generate_sample_urls, hs]
    simp [mainBlock, ht, hg]
  · intro c env u h
    rcases hv : videoLines env.build_url (test_videos.take 1) with e | ls
    · simp [mainBlock, test_url_generation, hv] at h
    · have ht : test_url_generation c env.build_url = Except.ok (urlHdr c ++ ls, true) := by
        simp [test_url_generation, hv]
      rw [mainBlock] at h
      rw [ht] at h
      have hu := (Except.ok.injEq _ _).mp h.symm
      rw [hu]
      simp [urlHdr]

/-- Witness for C10: two concrete runs differing only in the secret and
the key tail produce identical output, which contains the truncated key
line. -/
theorem c10_secret_noninterference_witness :
    mainBlock theCreds okEnv = mainBlock altCreds okEnv ∧
    ∃ u, mainBlock theCreds okEnv = Except.ok u ∧
      ("🔑 API Key: " ++ theCreds.api_key.take 10 ++ "...") ∈ u.1 :=
  ⟨c10_secret_noninterference.1 theCreds altCreds okEnv rfl (by decide),
   ⟨_, rfl, c10_secret_noninterference.2 theCreds okEnv _ rfl⟩⟩

end CloudinaryTest
